import Mathlib

/-!
# Verification of `specter_static_site/static_site_stack.py`

A shallow embedding of the `StaticSiteStack.__init__` constructor.  The
constructor declaratively builds a graph of resource entities (buckets, a
certificate, an edge distribution, alarms, a dashboard, DNS records, a
deployment action, stack outputs).  We model the construction as a pure
function from the constructor's keyword arguments to either a completed
resource graph, or a configuration error carrying the entities that were
already declared when the error was raised (constructs are attached to the
tree as they are created, so the entities declared before the `raise` on
line 121 exist at the point of failure).

Every definition mirrors the source: field values are the keyword arguments
passed at each construct call site, in source order.  Deferred identifiers
(such as `distribution.distribution_id`) are modelled as references to the
construct id of the entity that produces them.
-/

namespace StaticSite

/-- `s3.BlockPublicAccess` values used by the source (only BLOCK_ALL). -/
inductive BlockPublicAccess where
  | blockAll
deriving DecidableEq, Repr

/-- `s3.BucketEncryption` values used by the source. -/
inductive BucketEncryption where
  | s3Managed
  | kmsManaged
deriving DecidableEq, Repr

/-- `RemovalPolicy` values used by the source. -/
inductive RemovalPolicy where
  | retain
  | destroy
deriving DecidableEq, Repr

/-- `s3.ObjectOwnership` values used by the source. -/
inductive ObjectOwnership where
  | bucketOwnerPreferred
deriving DecidableEq, Repr

/-- One `s3.LifecycleRule`; durations kept in days, absent fields are `none`. -/
structure LifecycleRule where
  expirationDays : Option Nat
  abortIncompleteMultipartUploadAfterDays : Option Nat
  noncurrentVersionExpirationDays : Option Nat
deriving DecidableEq, Repr

/-- An `s3.Bucket` declaration: the keyword arguments of the call site.
`serverAccessLogsBucket` references the log bucket by construct id. -/
structure Bucket where
  constructId : String
  blockPublicAccess : BlockPublicAccess
  encryption : BucketEncryption
  enforceSSL : Bool
  removalPolicy : RemovalPolicy
  autoDeleteObjects : Bool
  versioned : Bool
  serverAccessLogsBucket : Option String
  objectOwnership : Option ObjectOwnership
  lifecycleRules : List LifecycleRule
deriving DecidableEq, Repr

/-- A hosted zone imported via `route53.HostedZone.from_hosted_zone_attributes`. -/
structure HostedZone where
  constructId : String
  hostedZoneId : String
  zoneName : String
deriving DecidableEq, Repr

/-- The resolved SSL certificate: either imported from an ARN
(`acm.Certificate.from_certificate_arn`) or synthesized
(`acm.Certificate` with DNS validation against a zone). -/
inductive Certificate where
  | fromArn (constructId : String) (arn : String)
  | synthesized (constructId : String) (domainName : String)
      (subjectAlternativeNames : List String) (validationZone : HostedZone)
deriving DecidableEq, Repr

/-- `cloudfront.ViewerProtocolPolicy` members. -/
inductive ViewerProtocolPolicy where
  | allowAll
  | redirectToHttps
  | httpsOnly
deriving DecidableEq, Repr

/-- `cloudfront.ResponseHeadersPolicy` values used by the source. -/
inductive ResponseHeadersPolicy where
  | securityHeaders
deriving DecidableEq, Repr

/-- One `cloudfront.ErrorResponse`; TTL kept in minutes. -/
structure ErrorResponse where
  httpStatus : Nat
  responseHttpStatus : Nat
  responsePagePath : String
  ttlMinutes : Nat
deriving DecidableEq, Repr

/-- A `cloudfront.Distribution` declaration.  `originBucket` references the
origin bucket by construct id (`S3BucketOrigin.with_origin_access_control`). -/
structure Distribution where
  constructId : String
  originBucket : String
  viewerProtocolPolicy : ViewerProtocolPolicy
  responseHeadersPolicy : ResponseHeadersPolicy
  domainNames : List String
  certificate : Certificate
  defaultRootObject : String
  errorResponses : List ErrorResponse
  webAclId : Option String
deriving DecidableEq, Repr

/-- A `cloudwatch.Metric`; the `DistributionId` dimension is a deferred
identifier, modelled as the construct id of the distribution producing it. -/
structure Metric where
  metricNamespace : String
  metricName : String
  dimensionDistributionIdOf : String
  statistic : String
  periodMinutes : Nat
  label : Option String
deriving DecidableEq, Repr

/-- `cloudwatch.ComparisonOperator` values used by the source. -/
inductive ComparisonOperator where
  | greaterThanThreshold
deriving DecidableEq, Repr

/-- `cloudwatch.TreatMissingData` values used by the source. -/
inductive TreatMissingData where
  | notBreaching
deriving DecidableEq, Repr

/-- A `cloudwatch.Alarm` declaration. -/
structure Alarm where
  constructId : String
  metric : Metric
  threshold : Nat
  evaluationPeriods : Nat
  comparisonOperator : ComparisonOperator
  alarmDescription : String
  treatMissingData : TreatMissingData
deriving DecidableEq, Repr

/-- A `cloudwatch.GraphWidget`. -/
structure GraphWidget where
  title : String
  width : Nat
  left : List Metric
deriving DecidableEq, Repr

/-- A `cloudwatch.Dashboard` declaration. -/
structure Dashboard where
  constructId : String
  dashboardName : String
  widgets : List (List GraphWidget)
deriving DecidableEq, Repr

/-- DNS record types declared by the source (`ARecord` / `AaaaRecord`). -/
inductive RecordType where
  | a
  | aaaa
deriving DecidableEq, Repr

/-- A Route 53 alias record.  `aliasTarget` references the distribution by
construct id (`route53_targets.CloudFrontTarget(distribution)`). -/
structure DnsRecord where
  constructId : String
  recordType : RecordType
  zone : HostedZone
  recordName : Option String
  aliasTarget : String
deriving DecidableEq, Repr

/-- An `s3deploy.BucketDeployment` declaration; bucket and distribution are
referenced by construct id. -/
structure BucketDeployment where
  constructId : String
  sourceAssetPath : String
  destinationBucket : String
  distribution : String
  distributionPaths : List String
deriving DecidableEq, Repr

/-- The value of a `CfnOutput`: deferred attributes are modelled as references
to the construct that produces them; `f"https://{domain_name}"` is a literal. -/
inductive OutputValue where
  | distributionDomainNameOf (constructId : String)
  | bucketNameOf (constructId : String)
  | literal (s : String)
deriving DecidableEq, Repr

/-- A resource entity in the graph. -/
inductive Resource where
  | bucket (b : Bucket)
  | zoneRef (z : HostedZone)
  | certificate (c : Certificate)
  | distribution (d : Distribution)
  | alarm (a : Alarm)
  | dashboard (d : Dashboard)
  | record (r : DnsRecord)
  | deployment (d : BucketDeployment)
  | output (name : String) (value : OutputValue) (description : String)
deriving DecidableEq, Repr

/-- The keyword arguments of `StaticSiteStack.__init__`. -/
structure Config where
  domainName : String
  distPath : String
  hostedZoneId : Option String := none
  certificateArn : Option String := none
  webAclId : Option String := none
  dashboardName : Option String := none
deriving DecidableEq, Repr

/-- Result of running the constructor: either the completed graph, or the
configuration error (`ValueError`) together with the entities that had
already been declared when it was raised. -/
inductive BuildResult where
  | ok (graph : List Resource)
  | err (partialGraph : List Resource) (message : String)
deriving DecidableEq, Repr

/-- Python truthiness of an optional string: `None` and `""` are falsy. -/
def truthy : Option String → Bool
  | none => false
  | some s => s ≠ ""

/-- Python `a or b` on an optional string and a string default:
`dashboard_name or domain_name`. -/
def pyOrElse (o : Option String) (default : String) : String :=
  match o with
  | none => default
  | some s => if s = "" then default else s

/-- Python `s.replace(".", "-")`: the pattern is a single character, so the
replacement substitutes each `.` character of the string with `-`. -/
def replaceDots (s : String) : String :=
  ⟨s.data.map fun c => if c = '.' then '-' else c⟩

/-- Line 43: `(dashboard_name or domain_name).replace(".", "-")`. -/
def resolvedDashboardName (cfg : Config) : String :=
  replaceDots (pyOrElse cfg.dashboardName cfg.domainName)

/-- Lines 46-59: the S3 access logs bucket. -/
def s3AccessLogsBucket : Bucket :=
  { constructId := "S3AccessLogsBucket"
    blockPublicAccess := .blockAll
    encryption := .s3Managed
    enforceSSL := true
    removalPolicy := .retain
    autoDeleteObjects := false
    versioned := false
    serverAccessLogsBucket := none
    objectOwnership := none
    lifecycleRules := [{ expirationDays := some 180
                         abortIncompleteMultipartUploadAfterDays := none
                         noncurrentVersionExpirationDays := none }] }

/-- Lines 62-76: the CloudFront access logs bucket. -/
def cloudfrontLogsBucket : Bucket :=
  { constructId := "CloudFrontLogsBucket"
    blockPublicAccess := .blockAll
    encryption := .kmsManaged
    enforceSSL := true
    removalPolicy := .retain
    autoDeleteObjects := false
    versioned := false
    serverAccessLogsBucket := none
    objectOwnership := some .bucketOwnerPreferred
    lifecycleRules := [{ expirationDays := some 180
                         abortIncompleteMultipartUploadAfterDays := none
                         noncurrentVersionExpirationDays := none }] }

/-- Lines 79-95: the site assets bucket. -/
def siteBucket : Bucket :=
  { constructId := "SiteBucket"
    blockPublicAccess := .blockAll
    encryption := .s3Managed
    enforceSSL := true
    removalPolicy := .destroy
    autoDeleteObjects := true
    versioned := true
    serverAccessLogsBucket := some "S3AccessLogsBucket"
    objectOwnership := none
    lifecycleRules := [{ expirationDays := none
                         abortIncompleteMultipartUploadAfterDays := some 1
                         noncurrentVersionExpirationDays := some 30 }] }

/-- Lines 97-105: look up the hosted zone if `hosted_zone_id` is truthy. -/
def hostedZoneOf (cfg : Config) : Option HostedZone :=
  match cfg.hostedZoneId with
  | none => none
  | some z =>
      if z = "" then none
      else some { constructId := "Zone", hostedZoneId := z, zoneName := cfg.domainName }

/-- Lines 107-124: resolve the SSL certificate; `none` means the `ValueError`
branch is taken. -/
def certOf (cfg : Config) (hz : Option HostedZone) : Option Certificate :=
  match cfg.certificateArn with
  | some arn =>
      if arn = "" then
        match hz with
        | some z => some (.synthesized "SiteCertificate" cfg.domainName
            ["www." ++ cfg.domainName] z)
        | none => none
      else some (.fromArn "Cert" arn)
  | none =>
      match hz with
      | some z => some (.synthesized "SiteCertificate" cfg.domainName
          ["www." ++ cfg.domainName] z)
      | none => none

/-- The message of the `ValueError` raised on lines 121-124. -/
def configErrorMessage : String :=
  "You must provide either certificate_arn or hosted_zone_id so a certificate can be created."

/-- The entities declared before the certificate resolution branch: the three
buckets (lines 46-95) and, when a zone id was given, the imported zone. -/
def preCertGraph (cfg : Config) : List Resource :=
  [.bucket s3AccessLogsBucket, .bucket cloudfrontLogsBucket, .bucket siteBucket]
    ++ (match hostedZoneOf cfg with
        | some z => [.zoneRef z]
        | none => [])

/-- Lines 127-153: the CloudFront distribution. -/
def siteDistribution (cfg : Config) (cert : Certificate) : Distribution :=
  { constructId := "SiteDistribution"
    originBucket := "SiteBucket"
    viewerProtocolPolicy := .redirectToHttps
    responseHeadersPolicy := .securityHeaders
    domainNames := [cfg.domainName, "www." ++ cfg.domainName]
    certificate := cert
    defaultRootObject := "index.html"
    errorResponses :=
      [{ httpStatus := 403, responseHttpStatus := 200
         responsePagePath := "/index.html", ttlMinutes := 5 },
       { httpStatus := 404, responseHttpStatus := 200
         responsePagePath := "/index.html", ttlMinutes := 5 }]
    webAclId := cfg.webAclId }

/-- Lines 156-171: the 5xx error-rate alarm. -/
def high5xxAlarm : Alarm :=
  { constructId := "High5xxErrorRate"
    metric := { metricNamespace := "AWS/CloudFront"
                metricName := "5xxErrorRate"
                dimensionDistributionIdOf := "SiteDistribution"
                statistic := "Average"
                periodMinutes := 5
                label := none }
    threshold := 5
    evaluationPeriods := 2
    comparisonOperator := .greaterThanThreshold
    alarmDescription := "CloudFront 5xx error rate exceeded 5%"
    treatMissingData := .notBreaching }

/-- Lines 173-188: the 4xx error-rate alarm. -/
def high4xxAlarm : Alarm :=
  { constructId := "High4xxErrorRate"
    metric := { metricNamespace := "AWS/CloudFront"
                metricName := "4xxErrorRate"
                dimensionDistributionIdOf := "SiteDistribution"
                statistic := "Average"
                periodMinutes := 5
                label := none }
    threshold := 10
    evaluationPeriods := 2
    comparisonOperator := .greaterThanThreshold
    alarmDescription := "CloudFront 4xx error rate exceeded 10%"
    treatMissingData := .notBreaching }

/-- Lines 190-234: the CloudWatch dashboard. -/
def siteDashboard (cfg : Config) : Dashboard :=
  { constructId := "SiteDashboard"
    dashboardName := resolvedDashboardName cfg
    widgets :=
      [[{ title := "CloudFront Error Rates"
          width := 12
          left := [{ metricNamespace := "AWS/CloudFront"
                     metricName := "5xxErrorRate"
                     dimensionDistributionIdOf := "SiteDistribution"
                     statistic := "Average"
                     periodMinutes := 5
                     label := some "5xx Error Rate" },
                   { metricNamespace := "AWS/CloudFront"
                     metricName := "4xxErrorRate"
                     dimensionDistributionIdOf := "SiteDistribution"
                     statistic := "Average"
                     periodMinutes := 5
                     label := some "4xx Error Rate" }] },
        { title := "CloudFront Requests"
          width := 12
          left := [{ metricNamespace := "AWS/CloudFront"
                     metricName := "Requests"
                     dimensionDistributionIdOf := "SiteDistribution"
                     statistic := "Sum"
                     periodMinutes := 5
                     label := some "Total Requests" }] }]] }

/-- Lines 237-268: the four Route 53 alias records (only when a zone exists). -/
def dnsRecordsOf (hz : Option HostedZone) : List Resource :=
  match hz with
  | none => []
  | some z =>
      [.record { constructId := "ApexAlias", recordType := .a, zone := z
                 recordName := none, aliasTarget := "SiteDistribution" },
       .record { constructId := "ApexAliasIPv6", recordType := .aaaa, zone := z
                 recordName := none, aliasTarget := "SiteDistribution" },
       .record { constructId := "WwwAlias", recordType := .a, zone := z
                 recordName := some "www", aliasTarget := "SiteDistribution" },
       .record { constructId := "WwwAliasIPv6", recordType := .aaaa, zone := z
                 recordName := some "www", aliasTarget := "SiteDistribution" }]

/-- Lines 271-278: the bucket deployment. -/
def deploySite (cfg : Config) : BucketDeployment :=
  { constructId := "DeploySite"
    sourceAssetPath := cfg.distPath
    destinationBucket := "SiteBucket"
    distribution := "SiteDistribution"
    distributionPaths := ["/*"] }

/-- Lines 300-333: the five stack outputs. -/
def stackOutputs (cfg : Config) : List Resource :=
  [.output "DistributionDomainName" (.distributionDomainNameOf "SiteDistribution")
      "CloudFront URL",
   .output "BucketName" (.bucketNameOf "SiteBucket") "S3 Bucket Name",
   .output "SiteUrl" (.literal ("https://" ++ cfg.domainName)) "Site URL",
   .output "CloudFrontLogsBucketName" (.bucketNameOf "CloudFrontLogsBucket")
      "CloudFront Logs Bucket Name",
   .output "S3AccessLogsBucketName" (.bucketNameOf "S3AccessLogsBucket")
      "S3 Access Logs Bucket Name"]

/-- The completed resource graph, in source order, for a resolved
certificate `cert`. -/
def fullGraph (cfg : Config) (cert : Certificate) : List Resource :=
  preCertGraph cfg
    ++ [.certificate cert,
        .distribution (siteDistribution cfg cert),
        .alarm high5xxAlarm,
        .alarm high4xxAlarm,
        .dashboard (siteDashboard cfg)]
    ++ dnsRecordsOf (hostedZoneOf cfg)
    ++ [.deployment (deploySite cfg)]
    ++ stackOutputs cfg

/-- `StaticSiteStack.__init__`: build the resource graph in source order,
failing with the `ValueError` when no certificate can be resolved. -/
def build (cfg : Config) : BuildResult :=
  match certOf cfg (hostedZoneOf cfg) with
  | none => .err (preCertGraph cfg) configErrorMessage
  | some cert => .ok (fullGraph cfg cert)

/-- Is this entity a bucket? -/
def isBucket : Resource → Bool
  | .bucket _ => true
  | _ => false

/-- Is this entity a DNS record? -/
def isRecord : Resource → Bool
  | .record _ => true
  | _ => false

/-- Is this entity a certificate, distribution, alarm, dashboard, DNS record,
or deployment?  (The entity kinds declared after the certificate check.) -/
def isPostCertEntity : Resource → Bool
  | .certificate _ => true
  | .distribution _ => true
  | .alarm _ => true
  | .dashboard _ => true
  | .record _ => true
  | .deployment _ => true
  | _ => false

/-- The graph carried by a build result (the partial graph on failure). -/
def graphOf : BuildResult → List Resource
  | .ok g => g
  | .err g _ => g

/-- The DNS record entities of a graph. -/
def recordsOf (g : List Resource) : List DnsRecord :=
  g.filterMap fun r => match r with
    | .record x => some x
    | _ => none

/-- The distribution entities of a graph. -/
def distributionsOf (g : List Resource) : List Distribution :=
  g.filterMap fun r => match r with
    | .distribution d => some d
    | _ => none

/-- The alarm entities of a graph. -/
def alarmsOf (g : List Resource) : List Alarm :=
  g.filterMap fun r => match r with
    | .alarm a => some a
    | _ => none

/-- The dashboard entities of a graph. -/
def dashboardsOf (g : List Resource) : List Dashboard :=
  g.filterMap fun r => match r with
    | .dashboard d => some d
    | _ => none

/-- The bucket entities of a graph. -/
def bucketsOf (g : List Resource) : List Bucket :=
  g.filterMap fun r => match r with
    | .bucket b => some b
    | _ => none

/-- The certificate entities of a graph. -/
def certificatesOf (g : List Resource) : List Certificate :=
  g.filterMap fun r => match r with
    | .certificate c => some c
    | _ => none

/-! ## Concrete configurations (mirroring the test suite's inputs) -/

/-- Neither a certificate ARN nor a hosted zone id. -/
def cfgNeither : Config :=
  { domainName := "example.com"
    distPath := "dist" }

/-- A certificate ARN and no hosted zone id. -/
def cfgCertOnly : Config :=
  { domainName := "example.com"
    distPath := "dist"
    certificateArn := some "arn:aws:acm:us-east-1:123456789012:certificate/test-cert" }

/-- A hosted zone id and no certificate ARN. -/
def cfgZoneOnly : Config :=
  { domainName := "example.com"
    distPath := "dist"
    hostedZoneId := some "Z1234567890" }

/-- A certificate ARN together with an explicit dashboard name that
contains a dot. -/
def cfgDottedDashboard : Config :=
  { domainName := "example.com"
    distPath := "dist"
    certificateArn := some "arn:aws:acm:us-east-1:123456789012:certificate/test-cert"
    dashboardName := some "my.dash" }

/-- A certificate ARN together with a web ACL id. -/
def cfgWithAcl : Config :=
  { domainName := "example.com"
    distPath := "dist"
    certificateArn := some "arn:aws:acm:us-east-1:123456789012:certificate/test-cert"
    webAclId := some "arn:aws:wafv2:us-east-1:123456789012:global/webacl/test/abc123" }

/-! ## Structural lemmas about `build` -/

/-- A falsy `hosted_zone_id` means no zone is imported. -/
lemma hostedZoneOf_of_falsy {cfg : Config} (h : truthy cfg.hostedZoneId = false) :
    hostedZoneOf cfg = none := by
  unfold hostedZoneOf
  cases hz : cfg.hostedZoneId with
  | none => rfl
  | some z =>
      rw [hz] at h
      simp only [truthy, decide_eq_false_iff_not, Decidable.not_not] at h
      simp [h]

/-- A truthy `hosted_zone_id` imports the zone with the supplied id and the
domain name as zone name. -/
lemma hostedZoneOf_of_some {cfg : Config} {zid : String}
    (h : cfg.hostedZoneId = some zid) (hne : zid ≠ "") :
    hostedZoneOf cfg =
      some { constructId := "Zone", hostedZoneId := zid, zoneName := cfg.domainName } := by
  unfold hostedZoneOf
  rw [h]
  simp [hne]

/-- A truthy `certificate_arn` resolves to the imported certificate,
whatever the zone. -/
lemma certOf_of_truthy_arn {cfg : Config} (hz : Option HostedZone)
    (h : truthy cfg.certificateArn = true) :
    ∃ arn, cfg.certificateArn = some arn ∧ arn ≠ "" ∧
      certOf cfg hz = some (.fromArn "Cert" arn) := by
  unfold certOf
  cases ha : cfg.certificateArn with
  | none => rw [ha] at h; simp [truthy] at h
  | some arn =>
      rw [ha] at h
      simp only [truthy, decide_eq_true_eq] at h
      exact ⟨arn, rfl, h, by simp [h]⟩

/-- A falsy `certificate_arn` and a present zone synthesize the certificate. -/
lemma certOf_of_falsy_arn_zone {cfg : Config} (z : HostedZone)
    (h : truthy cfg.certificateArn = false) :
    certOf cfg (some z) =
      some (.synthesized "SiteCertificate" cfg.domainName
        ["www." ++ cfg.domainName] z) := by
  unfold certOf
  cases ha : cfg.certificateArn with
  | none => rfl
  | some arn =>
      rw [ha] at h
      simp only [truthy, decide_eq_false_iff_not, Decidable.not_not] at h
      simp [h]

/-- A falsy `certificate_arn` and no zone make certificate resolution fail. -/
lemma certOf_of_falsy_arn_no_zone {cfg : Config}
    (h : truthy cfg.certificateArn = false) :
    certOf cfg none = none := by
  unfold certOf
  cases ha : cfg.certificateArn with
  | none => rfl
  | some arn =>
      rw [ha] at h
      simp only [truthy, decide_eq_false_iff_not, Decidable.not_not] at h
      simp [h]

/-- A successful build produces the full graph of some resolved certificate. -/
lemma build_ok_elim {cfg : Config} {g : List Resource} (h : build cfg = .ok g) :
    ∃ cert, certOf cfg (hostedZoneOf cfg) = some cert ∧ g = fullGraph cfg cert := by
  unfold build at h
  cases hc : certOf cfg (hostedZoneOf cfg) with
  | none => rw [hc] at h; exact absurd h (by simp)
  | some cert =>
      rw [hc] at h
      exact ⟨cert, rfl, (BuildResult.ok.injEq _ _ ▸ h).symm⟩

/-- The full graph contains exactly one distribution entity. -/
lemma distributionsOf_fullGraph (cfg : Config) (cert : Certificate) :
    distributionsOf (fullGraph cfg cert) = [siteDistribution cfg cert] := by
  cases hz : hostedZoneOf cfg <;>
    simp [fullGraph, preCertGraph, dnsRecordsOf, stackOutputs, distributionsOf, hz,
      List.filterMap_append, List.filterMap_cons]

/-- The full graph contains exactly one certificate entity: the resolved one. -/
lemma certificatesOf_fullGraph (cfg : Config) (cert : Certificate) :
    certificatesOf (fullGraph cfg cert) = [cert] := by
  cases hz : hostedZoneOf cfg <;>
    simp [fullGraph, preCertGraph, dnsRecordsOf, stackOutputs, certificatesOf, hz,
      List.filterMap_append, List.filterMap_cons]

/-- The full graph contains exactly the two alarms, in source order. -/
lemma alarmsOf_fullGraph (cfg : Config) (cert : Certificate) :
    alarmsOf (fullGraph cfg cert) = [high5xxAlarm, high4xxAlarm] := by
  cases hz : hostedZoneOf cfg <;>
    simp [fullGraph, preCertGraph, dnsRecordsOf, stackOutputs, alarmsOf, hz,
      List.filterMap_append, List.filterMap_cons]

/-- The full graph contains exactly one dashboard entity. -/
lemma dashboardsOf_fullGraph (cfg : Config) (cert : Certificate) :
    dashboardsOf (fullGraph cfg cert) = [siteDashboard cfg] := by
  cases hz : hostedZoneOf cfg <;>
    simp [fullGraph, preCertGraph, dnsRecordsOf, stackOutputs, dashboardsOf, hz,
      List.filterMap_append, List.filterMap_cons]

/-- The full graph contains exactly the three buckets, in source order. -/
lemma bucketsOf_fullGraph (cfg : Config) (cert : Certificate) :
    bucketsOf (fullGraph cfg cert) =
      [s3AccessLogsBucket, cloudfrontLogsBucket, siteBucket] := by
  cases hz : hostedZoneOf cfg <;>
    simp [fullGraph, preCertGraph, dnsRecordsOf, stackOutputs, bucketsOf, hz,
      List.filterMap_append, List.filterMap_cons]

/-- Without a zone, the full graph contains no DNS record entity. -/
lemma recordsOf_fullGraph_of_no_zone {cfg : Config} (cert : Certificate)
    (hz : hostedZoneOf cfg = none) :
    recordsOf (fullGraph cfg cert) = [] := by
  simp [fullGraph, preCertGraph, dnsRecordsOf, stackOutputs, recordsOf, hz,
    List.filterMap_append, List.filterMap_cons]

/-- With a zone, the full graph contains exactly the four alias records. -/
lemma recordsOf_fullGraph_of_zone {cfg : Config} {z : HostedZone} (cert : Certificate)
    (hz : hostedZoneOf cfg = some z) :
    recordsOf (fullGraph cfg cert) =
      [{ constructId := "ApexAlias", recordType := .a, zone := z
         recordName := none, aliasTarget := "SiteDistribution" },
       { constructId := "ApexAliasIPv6", recordType := .aaaa, zone := z
         recordName := none, aliasTarget := "SiteDistribution" },
       { constructId := "WwwAlias", recordType := .a, zone := z
         recordName := some "www", aliasTarget := "SiteDistribution" },
       { constructId := "WwwAliasIPv6", recordType := .aaaa, zone := z
         recordName := some "www", aliasTarget := "SiteDistribution" }] := by
  simp [fullGraph, preCertGraph, dnsRecordsOf, stackOutputs, recordsOf, hz,
    List.filterMap_append, List.filterMap_cons]

/-! ## Claims -/

/-- C1, counterexample: with neither `certificate_arn` nor `hosted_zone_id`,
construction does fail with the configuration error, but the graph at the
point of failure already contains bucket entities, so the failure does not
occur before any resource entity is created. -/
theorem c1_counterexample :
    build cfgNeither =
      .err [.bucket s3AccessLogsBucket, .bucket cloudfrontLogsBucket, .bucket siteBucket]
        configErrorMessage ∧
    (graphOf (build cfgNeither)).countP isBucket ≠ 0 :=
  ⟨rfl, by decide⟩

/-- C1, amended: with neither `certificate_arn` nor `hosted_zone_id` supplied
(or both falsy), construction fails synchronously with the configuration
error; at the point of failure no certificate, distribution, alarm,
dashboard, DNS record, or deployment entity has been added to the graph, but
the three bucket entities (two log buckets and the site bucket) have already
been declared. -/
theorem c1_config_error_after_buckets (cfg : Config)
    (hcert : truthy cfg.certificateArn = false)
    (hzone : truthy cfg.hostedZoneId = false) :
    build cfg =
      .err [.bucket s3AccessLogsBucket, .bucket cloudfrontLogsBucket, .bucket siteBucket]
        configErrorMessage ∧
    (graphOf (build cfg)).countP isPostCertEntity = 0 := by
  have hz := hostedZoneOf_of_falsy hzone
  have hc := certOf_of_falsy_arn_no_zone hcert
  have hpre : preCertGraph cfg =
      [.bucket s3AccessLogsBucket, .bucket cloudfrontLogsBucket, .bucket siteBucket] := by
    simp [preCertGraph, hz]
  have hb : build cfg =
      .err [.bucket s3AccessLogsBucket, .bucket cloudfrontLogsBucket, .bucket siteBucket]
        configErrorMessage := by
    unfold build
    rw [hz, hc, hpre]
  exact ⟨hb, by rw [hb]; decide⟩

/-- C1, witness: the amended statement instantiated at the configuration
that supplies neither reference. -/
theorem c1_witness :
    truthy cfgNeither.certificateArn = false ∧
    truthy cfgNeither.hostedZoneId = false ∧
    (build cfgNeither =
      .err [.bucket s3AccessLogsBucket, .bucket cloudfrontLogsBucket, .bucket siteBucket]
        configErrorMessage ∧
    (graphOf (build cfgNeither)).countP isPostCertEntity = 0) :=
  ⟨by decide, by decide, c1_config_error_after_buckets cfgNeither (by decide) (by decide)⟩

/-- C2: with a truthy `hosted_zone_id` and a falsy `certificate_arn`,
construction succeeds, the graph's only certificate entity is the synthesized
one (domain `domain_name`, subject alternative name `www.domain_name`, DNS
validation against the supplied zone), and the graph's DNS record entities
are exactly the four alias records (A and AAAA for the bare domain, A and
AAAA for `www`), each targeting the distribution. -/
theorem c2_zone_synthesizes_cert_and_records (cfg : Config) (zid : String)
    (hcert : truthy cfg.certificateArn = false)
    (hzid : cfg.hostedZoneId = some zid) (hne : zid ≠ "") :
    ∃ g, build cfg = .ok g ∧
      certificatesOf g =
        [.synthesized "SiteCertificate" cfg.domainName ["www." ++ cfg.domainName]
          { constructId := "Zone", hostedZoneId := zid, zoneName := cfg.domainName }] ∧
      recordsOf g =
        [{ constructId := "ApexAlias", recordType := .a
           zone := { constructId := "Zone", hostedZoneId := zid, zoneName := cfg.domainName }
           recordName := none, aliasTarget := "SiteDistribution" },
         { constructId := "ApexAliasIPv6", recordType := .aaaa
           zone := { constructId := "Zone", hostedZoneId := zid, zoneName := cfg.domainName }
           recordName := none, aliasTarget := "SiteDistribution" },
         { constructId := "WwwAlias", recordType := .a
           zone := { constructId := "Zone", hostedZoneId := zid, zoneName := cfg.domainName }
           recordName := some "www", aliasTarget := "SiteDistribution" },
         { constructId := "WwwAliasIPv6", recordType := .aaaa
           zone := { constructId := "Zone", hostedZoneId := zid, zoneName := cfg.domainName }
           recordName := some "www", aliasTarget := "SiteDistribution" }] := by
  have hz := hostedZoneOf_of_some hzid hne
  have hc := certOf_of_falsy_arn_zone
    { constructId := "Zone", hostedZoneId := zid, zoneName := cfg.domainName } hcert
  have hb : build cfg = .ok (fullGraph cfg
      (.synthesized "SiteCertificate" cfg.domainName ["www." ++ cfg.domainName]
        { constructId := "Zone", hostedZoneId := zid, zoneName := cfg.domainName })) := by
    unfold build
    rw [hz, hc]
  exact ⟨_, hb, certificatesOf_fullGraph _ _, recordsOf_fullGraph_of_zone _ hz⟩

/-- C2, witness: the statement instantiated at the zone-only configuration. -/
theorem c2_witness :
    truthy cfgZoneOnly.certificateArn = false ∧
    cfgZoneOnly.hostedZoneId = some "Z1234567890" ∧
    ("Z1234567890" : String) ≠ "" ∧
    (∃ g, build cfgZoneOnly = .ok g ∧
      certificatesOf g =
        [.synthesized "SiteCertificate" "example.com" ["www.example.com"]
          { constructId := "Zone", hostedZoneId := "Z1234567890", zoneName := "example.com" }] ∧
      recordsOf g =
        [{ constructId := "ApexAlias", recordType := .a
           zone := { constructId := "Zone", hostedZoneId := "Z1234567890", zoneName := "example.com" }
           recordName := none, aliasTarget := "SiteDistribution" },
         { constructId := "ApexAliasIPv6", recordType := .aaaa
           zone := { constructId := "Zone", hostedZoneId := "Z1234567890", zoneName := "example.com" }
           recordName := none, aliasTarget := "SiteDistribution" },
         { constructId := "WwwAlias", recordType := .a
           zone := { constructId := "Zone", hostedZoneId := "Z1234567890", zoneName := "example.com" }
           recordName := some "www", aliasTarget := "SiteDistribution" },
         { constructId := "WwwAliasIPv6", recordType := .aaaa
           zone := { constructId := "Zone", hostedZoneId := "Z1234567890", zoneName := "example.com" }
           recordName := some "www", aliasTarget := "SiteDistribution" }]) :=
  ⟨by decide, rfl, by decide,
    c2_zone_synthesizes_cert_and_records cfgZoneOnly "Z1234567890" (by decide) rfl (by decide)⟩

/-- C3, counterexample: with the explicit dashboard name `my.dash`, the
dashboard entity's resolved identifier is `my-dash`, not the supplied name
verbatim — the dot replacement is applied to explicit names too. -/
theorem c3_counterexample :
    (dashboardsOf (graphOf (build cfgDottedDashboard))).map Dashboard.dashboardName =
      ["my-dash"] ∧
    ("my-dash" : String) ≠ "my.dash" :=
  ⟨by decide, by decide⟩

/-- C3, amended: the resolved dashboard identifier equals `domain_name` with
every dot replaced by a dash when `dashboard_name` is not supplied, and
equals the supplied `dashboard_name` with every dot likewise replaced by a
dash when a non-empty `dashboard_name` is supplied. -/
theorem c3_dashboard_name_dots_replaced (cfg : Config) (g : List Resource)
    (h : build cfg = .ok g) :
    (cfg.dashboardName = none →
      (dashboardsOf g).map Dashboard.dashboardName = [replaceDots cfg.domainName]) ∧
    ∀ s, cfg.dashboardName = some s → s ≠ "" →
      (dashboardsOf g).map Dashboard.dashboardName = [replaceDots s] := by
  obtain ⟨cert, hc, rfl⟩ := build_ok_elim h
  rw [dashboardsOf_fullGraph]
  constructor
  · intro hd
    simp [siteDashboard, resolvedDashboardName, pyOrElse, hd]
  · intro s hs hne
    simp [siteDashboard, resolvedDashboardName, pyOrElse, hs, hne]

/-- C3, witness: the amended statement instantiated at the configuration
with the dotted explicit dashboard name. -/
theorem c3_witness :
    (dashboardsOf (graphOf (build cfgDottedDashboard))).map Dashboard.dashboardName =
      [replaceDots "my.dash"] :=
  (c3_dashboard_name_dots_replaced cfgDottedDashboard
    (graphOf (build cfgDottedDashboard)) rfl).2 "my.dash" rfl (by decide)

/-- C4: in every successful construction, the graph's bucket entity with
construct id `SiteBucket` has public access fully blocked, server-side
encryption enabled, and enforce-SSL (TLS-only) access, for every
combination of optional parameters. -/
theorem c4_site_bucket_security (cfg : Config) (g : List Resource)
    (h : build cfg = .ok g) :
    ∃ b, (bucketsOf g).filter (fun x => x.constructId == "SiteBucket") = [b] ∧
      b.blockPublicAccess = .blockAll ∧
      b.encryption = .s3Managed ∧
      b.enforceSSL = true := by
  obtain ⟨cert, hc, rfl⟩ := build_ok_elim h
  rw [bucketsOf_fullGraph]
  exact ⟨siteBucket, by decide, rfl, rfl, rfl⟩

/-- C4, witness: the statement instantiated at the certificate-only
configuration. -/
theorem c4_witness :
    ∃ b, (bucketsOf (graphOf (build cfgCertOnly))).filter
        (fun x => x.constructId == "SiteBucket") = [b] ∧
      b.blockPublicAccess = .blockAll ∧
      b.encryption = .s3Managed ∧
      b.enforceSSL = true :=
  c4_site_bucket_security cfgCertOnly (graphOf (build cfgCertOnly)) rfl

/-- C5: with a truthy `certificate_arn` and a falsy `hosted_zone_id`,
construction succeeds and the graph contains zero DNS record entities. -/
theorem c5_cert_only_no_records (cfg : Config)
    (hcert : truthy cfg.certificateArn = true)
    (hzone : truthy cfg.hostedZoneId = false) :
    ∃ g, build cfg = .ok g ∧ recordsOf g = [] := by
  have hz := hostedZoneOf_of_falsy hzone
  obtain ⟨arn, ha, hne, hc⟩ := certOf_of_truthy_arn (hostedZoneOf cfg) hcert
  refine ⟨fullGraph cfg (.fromArn "Cert" arn), ?_, ?_⟩
  · unfold build
    rw [hc]
  · exact recordsOf_fullGraph_of_no_zone _ hz

/-- C5, witness: the statement instantiated at the certificate-only
configuration. -/
theorem c5_witness :
    truthy cfgCertOnly.certificateArn = true ∧
    truthy cfgCertOnly.hostedZoneId = false ∧
    (∃ g, build cfgCertOnly = .ok g ∧ recordsOf g = []) :=
  ⟨by decide, by decide, c5_cert_only_no_records cfgCertOnly (by decide) (by decide)⟩

/-- C6, counterexample: the distribution's viewer protocol policy is
redirect-to-HTTPS, which is not the HTTPS-only member of the viewer policy
taxonomy, so the distribution is not declared with an HTTPS-only viewer
policy as the claim states. -/
theorem c6_counterexample :
    (distributionsOf (graphOf (build cfgCertOnly))).map Distribution.viewerProtocolPolicy =
      [.redirectToHttps] ∧
    ViewerProtocolPolicy.redirectToHttps ≠ ViewerProtocolPolicy.httpsOnly :=
  ⟨by decide, by decide⟩

/-- C6, amended: in every successful construction, the single distribution
entity is declared with the redirect-to-HTTPS viewer policy (plain-HTTP
requests are redirected to HTTPS rather than served), the security-headers
response policy, both `domain_name` and its `www` variant as alternate
domain names, and the resolved certificate (the graph's only certificate
entity) bound to it. -/
theorem c6_distribution_props (cfg : Config) (g : List Resource)
    (h : build cfg = .ok g) :
    ∃ d, distributionsOf g = [d] ∧
      d.viewerProtocolPolicy = .redirectToHttps ∧
      d.responseHeadersPolicy = .securityHeaders ∧
      d.domainNames = [cfg.domainName, "www." ++ cfg.domainName] ∧
      certificatesOf g = [d.certificate] := by
  obtain ⟨cert, hc, rfl⟩ := build_ok_elim h
  rw [distributionsOf_fullGraph, certificatesOf_fullGraph]
  exact ⟨siteDistribution cfg cert, rfl, rfl, rfl, rfl, rfl⟩

/-- C6, witness: the amended statement instantiated at the certificate-only
configuration. -/
theorem c6_witness :
    ∃ d, distributionsOf (graphOf (build cfgCertOnly)) = [d] ∧
      d.viewerProtocolPolicy = .redirectToHttps ∧
      d.responseHeadersPolicy = .securityHeaders ∧
      d.domainNames = ["example.com", "www.example.com"] ∧
      certificatesOf (graphOf (build cfgCertOnly)) = [d.certificate] :=
  c6_distribution_props cfgCertOnly (graphOf (build cfgCertOnly)) rfl

/-- C7: in every successful construction, the single distribution entity
carries the supplied web ACL reference when `web_acl_id` is supplied, and
carries no firewall reference when it is not supplied. -/
theorem c7_web_acl_passthrough (cfg : Config) (g : List Resource)
    (h : build cfg = .ok g) :
    ∃ d, distributionsOf g = [d] ∧
      (∀ w, cfg.webAclId = some w → d.webAclId = some w) ∧
      (cfg.webAclId = none → d.webAclId = none) := by
  obtain ⟨cert, hc, rfl⟩ := build_ok_elim h
  rw [distributionsOf_fullGraph]
  refine ⟨siteDistribution cfg cert, rfl, ?_, ?_⟩
  · intro w hw
    simp [siteDistribution, hw]
  · intro hn
    simp [siteDistribution, hn]

/-- C7, witness: the statement instantiated at the configuration with a web
ACL id. -/
theorem c7_witness :
    ∃ d, distributionsOf (graphOf (build cfgWithAcl)) = [d] ∧
      (∀ w, cfgWithAcl.webAclId = some w → d.webAclId = some w) ∧
      (cfgWithAcl.webAclId = none → d.webAclId = none) :=
  c7_web_acl_passthrough cfgWithAcl (graphOf (build cfgWithAcl)) rfl

/-- C8: in every successful construction, the graph's alarm entities are
exactly two: a 5xx error-rate alarm with threshold 5 and a 4xx error-rate
alarm with threshold 10, each on the distribution's metric with a 5-minute
period, two evaluation periods, and a strictly-greater-than comparison; and
the graph's single dashboard aggregates the two error rates and the request
volume. -/
theorem c8_alarms_and_dashboard (cfg : Config) (g : List Resource)
    (h : build cfg = .ok g) :
    (∃ a5 a4, alarmsOf g = [a5, a4] ∧
      a5.metric.metricName = "5xxErrorRate" ∧
      a5.threshold = 5 ∧
      a5.metric.periodMinutes = 5 ∧
      a5.evaluationPeriods = 2 ∧
      a5.comparisonOperator = .greaterThanThreshold ∧
      a5.metric.dimensionDistributionIdOf = "SiteDistribution" ∧
      a4.metric.metricName = "4xxErrorRate" ∧
      a4.threshold = 10 ∧
      a4.metric.periodMinutes = 5 ∧
      a4.evaluationPeriods = 2 ∧
      a4.comparisonOperator = .greaterThanThreshold ∧
      a4.metric.dimensionDistributionIdOf = "SiteDistribution") ∧
    ∃ w, dashboardsOf g = [w] ∧
      (w.widgets.flatten.map GraphWidget.left).flatten.map
          (fun m => (m.metricName, m.statistic)) =
        [("5xxErrorRate", "Average"), ("4xxErrorRate", "Average"),
         ("Requests", "Sum")] := by
  obtain ⟨cert, hc, rfl⟩ := build_ok_elim h
  rw [alarmsOf_fullGraph, dashboardsOf_fullGraph]
  exact ⟨⟨high5xxAlarm, high4xxAlarm, rfl, rfl, rfl, rfl, rfl, rfl, rfl, rfl,
    rfl, rfl, rfl, rfl, rfl⟩, ⟨siteDashboard cfg, rfl, rfl⟩⟩

/-- C8, witness: the statement instantiated at the certificate-only
configuration. -/
theorem c8_witness :
    (∃ a5 a4, alarmsOf (graphOf (build cfgCertOnly)) = [a5, a4] ∧
      a5.metric.metricName = "5xxErrorRate" ∧
      a5.threshold = 5 ∧
      a5.metric.periodMinutes = 5 ∧
      a5.evaluationPeriods = 2 ∧
      a5.comparisonOperator = .greaterThanThreshold ∧
      a5.metric.dimensionDistributionIdOf = "SiteDistribution" ∧
      a4.metric.metricName = "4xxErrorRate" ∧
      a4.threshold = 10 ∧
      a4.metric.periodMinutes = 5 ∧
      a4.evaluationPeriods = 2 ∧
      a4.comparisonOperator = .greaterThanThreshold ∧
      a4.metric.dimensionDistributionIdOf = "SiteDistribution") ∧
    ∃ w, dashboardsOf (graphOf (build cfgCertOnly)) = [w] ∧
      (w.widgets.flatten.map GraphWidget.left).flatten.map
          (fun m => (m.metricName, m.statistic)) =
        [("5xxErrorRate", "Average"), ("4xxErrorRate", "Average"),
         ("Requests", "Sum")] :=
  c8_alarms_and_dashboard cfgCertOnly (graphOf (build cfgCertOnly)) rfl

/-- C9: in every successful construction, the graph's bucket entities are
the two log buckets and the site bucket; both log buckets carry a single
180-day object-expiration lifecycle rule, a retain removal policy, and no
automatic object deletion, while the site bucket carries a destroy removal
policy and automatic object deletion. -/
theorem c9_bucket_lifecycles (cfg : Config) (g : List Resource)
    (h : build cfg = .ok g) :
    (bucketsOf g).map Bucket.constructId =
      ["S3AccessLogsBucket", "CloudFrontLogsBucket", "SiteBucket"] ∧
    (∀ b ∈ bucketsOf g,
      (b.constructId = "S3AccessLogsBucket" ∨ b.constructId = "CloudFrontLogsBucket") →
        b.lifecycleRules =
          [{ expirationDays := some 180
             abortIncompleteMultipartUploadAfterDays := none
             noncurrentVersionExpirationDays := none }] ∧
        b.removalPolicy = .retain ∧
        b.autoDeleteObjects = false) ∧
    (∀ b ∈ bucketsOf g, b.constructId = "SiteBucket" →
        b.removalPolicy = .destroy ∧ b.autoDeleteObjects = true) := by
  obtain ⟨cert, hc, rfl⟩ := build_ok_elim h
  rw [bucketsOf_fullGraph]
  refine ⟨rfl, ?_, ?_⟩ <;> decide

/-- C9, witness: the statement instantiated at the certificate-only
configuration. -/
theorem c9_witness :
    (bucketsOf (graphOf (build cfgCertOnly))).map Bucket.constructId =
      ["S3AccessLogsBucket", "CloudFrontLogsBucket", "SiteBucket"] ∧
    (∀ b ∈ bucketsOf (graphOf (build cfgCertOnly)),
      (b.constructId = "S3AccessLogsBucket" ∨ b.constructId = "CloudFrontLogsBucket") →
        b.lifecycleRules =
          [{ expirationDays := some 180
             abortIncompleteMultipartUploadAfterDays := none
             noncurrentVersionExpirationDays := none }] ∧
        b.removalPolicy = .retain ∧
        b.autoDeleteObjects = false) ∧
    (∀ b ∈ bucketsOf (graphOf (build cfgCertOnly)), b.constructId = "SiteBucket" →
        b.removalPolicy = .destroy ∧ b.autoDeleteObjects = true) :=
  c9_bucket_lifecycles cfgCertOnly (graphOf (build cfgCertOnly)) rfl

/-- C10: in every successful construction, the single distribution entity
maps both origin status 403 and 404 to response status 200 with body path
`/index.html` and a 5-minute TTL, and its default root object is
`index.html`. -/
theorem c10_error_responses_rewrite (cfg : Config) (g : List Resource)
    (h : build cfg = .ok g) :
    ∃ d, distributionsOf g = [d] ∧
      d.errorResponses =
        [{ httpStatus := 403, responseHttpStatus := 200
           responsePagePath := "/index.html", ttlMinutes := 5 },
         { httpStatus := 404, responseHttpStatus := 200
           responsePagePath := "/index.html", ttlMinutes := 5 }] ∧
      d.defaultRootObject = "index.html" := by
  obtain ⟨cert, hc, rfl⟩ := build_ok_elim h
  rw [distributionsOf_fullGraph]
  exact ⟨siteDistribution cfg cert, rfl, rfl, rfl⟩

/-- C10, witness: the statement instantiated at the certificate-only
configuration. -/
theorem c10_witness :
    ∃ d, distributionsOf (graphOf (build cfgCertOnly)) = [d] ∧
      d.errorResponses =
        [{ httpStatus := 403, responseHttpStatus := 200
           responsePagePath := "/index.html", ttlMinutes := 5 },
         { httpStatus := 404, responseHttpStatus := 200
           responsePagePath := "/index.html", ttlMinutes := 5 }] ∧
      d.defaultRootObject = "index.html" :=
  c10_error_responses_rewrite cfgCertOnly (graphOf (build cfgCertOnly)) rfl

end StaticSite
